import Mathlib

/-!
Verification of the level-loading and level-query core of rust-doom
(`src/wad/level.rs`).

The Rust code is shallowly embedded: each query method of `Level` becomes a
Lean function over an explicit `Level` record of lists.  Rust panics
(out-of-bounds indexing, `Option::unwrap` on `None`, `Option::expect`,
failed `assert!`) are modeled by the `Except Panic` monad: `.error`
means the call aborts.  References to entities that live inside the
`Level` (such as `&WadSector` arguments) are modeled as positional
indices into the owning sequence, which is exactly the information a
genuine in-bounds reference carries.

Machine integers: the original field types are 16-bit (`i16`/`u16`);
unsigned fields are modeled as `Nat`, signed fields (the `-1`-sentinel
sidedef indices of a linedef) as `Int`.  The Rust cast `i as uint`
(sign-extending an `i16` to a 64-bit unsigned word) is modeled by
`intAsUint`, i.e. reduction modulo `2 ^ 64`.
-/

/-- The ways a query call can abort, mirroring the panics of the Rust code:
`expect("No such level.")`, slice indexing out of bounds, `unwrap` of a
`None` front sidedef, and the `assert!` in `sector_id`. -/
inductive Panic where
  | noSuchLevel
  | indexOutOfBounds
  | unwrapEmpty
  | assertFailed
deriving Repr, DecidableEq

deriving instance DecidableEq for Except

/-- The Rust cast `i as uint` applied to a signed 16-bit value sign-extends
and reinterprets, i.e. reduces modulo `2 ^ 64` (`uint` is 64-bit). -/
def intAsUint (i : Int) : Nat :=
  (i % (2 ^ 64 : Int)).toNat

/-- Modelled from the spec: `WadName` (defined in the external
`wad/types.rs`, not part of the given source) is a fixed-width
texture/lump name; we model it as the list of its characters. -/
def WadName : Type := List Char
deriving instance DecidableEq, Repr for WadName

/-- Modelled from the spec: `canonicalise` (external to the given source)
normalizes a fixed-width name field by stripping trailing padding. -/
def WadName.canonicalise (n : WadName) : WadName :=
  (n.reverse.dropWhile (fun c => c = Char.ofNat 0)).reverse

/-- A placed game-object spawn point; not queried beyond storage. -/
structure WadThing where
  raw : Int
deriving Repr, DecidableEq

/-- A BSP split-plane node; not queried beyond storage. -/
structure WadNode where
  raw : Int
deriving Repr, DecidableEq

/-- A 2D map vertex, raw file-space coordinates. -/
structure WadVertex where
  x : Int
  y : Int
deriving Repr, DecidableEq

/-- A wall-boundary line.  `left_side` / `right_side` are signed sidedef
indices where `-1` means "no sidedef on that side". -/
structure WadLinedef where
  start_vertex : Nat
  end_vertex : Nat
  left_side : Int
  right_side : Int
deriving Repr, DecidableEq

/-- One face of a linedef: three texture names and the owning sector index. -/
structure WadSidedef where
  upper_texture : WadName
  lower_texture : WadName
  middle_texture : WadName
  sector : Nat
deriving Repr, DecidableEq

/-- A flat floor/ceiling region with a light level. -/
structure WadSector where
  floor_height : Int
  ceiling_height : Int
  floor_texture : WadName
  ceiling_texture : WadName
  light : Int
deriving Repr, DecidableEq

/-- A BSP-split fragment of a linedef. `direction = 0` means same
orientation as the linedef, `1` means reversed. -/
structure WadSeg where
  start_vertex : Nat
  end_vertex : Nat
  linedef : Nat
  direction : Nat
deriving Repr, DecidableEq

/-- A convex BSP leaf: a contiguous range of segs. -/
structure WadSubsector where
  first_seg : Nat
  num_segs : Nat
deriving Repr, DecidableEq

/-- The world-space coordinate produced by the external
`from_wad_coords` utility. -/
structure Vec2f where
  x : Int
  y : Int
deriving Repr, DecidableEq

/-- Modelled from the spec: `from_wad_coords` (external `wad/util.rs`, not
part of the given source) is a fixed linear transform into world space
whose coefficients the spec leaves to an external utility; we model it as
the identity embedding of the raw coordinates, which is a fixed linear
transform and preserves everything the claims need (the bounds-checked
lookup happens before it). -/
def from_wad_coords (x y : Int) : Vec2f :=
  { x := x, y := y }

/-- The in-memory level store: the eight record sequences. -/
structure Level where
  things : List WadThing
  linedefs : List WadLinedef
  sidedefs : List WadSidedef
  vertices : List WadVertex
  segs : List WadSeg
  subsectors : List WadSubsector
  nodes : List WadNode
  sectors : List WadSector
deriving Repr, DecidableEq

def THINGS_OFFSET : Nat := 1
def LINEDEFS_OFFSET : Nat := 2
def SIDEDEFS_OFFSET : Nat := 3
def VERTICES_OFFSET : Nat := 4
def SEGS_OFFSET : Nat := 5
def SSECTORS_OFFSET : Nat := 6
def NODES_OFFSET : Nat := 7
def SECTORS_OFFSET : Nat := 8

/-- Modelled from the spec: the archive collaborator (external
`wad/archive.rs`, not part of the given source).  `get_lump_index`
resolves a lump name to a position; `read_lump` decodes the lump at a
position into a sequence of fixed-size records — one reader field per
record type, since the Rust method is generic in the record type. -/
structure Archive where
  get_lump_index : WadName → Option Nat
  readThings : Nat → List WadThing
  readLinedefs : Nat → List WadLinedef
  readSidedefs : Nat → List WadSidedef
  readVertices : Nat → List WadVertex
  readSegs : Nat → List WadSeg
  readSubsectors : Nat → List WadSubsector
  readNodes : Nat → List WadNode
  readSectors : Nat → List WadSector

/-- Canonicalisation of one decoded sidedef, as performed by the loader
loop: the three texture-name fields are canonicalised in place. -/
def canonSidedef (sd : WadSidedef) : WadSidedef :=
  { sd with
    upper_texture := sd.upper_texture.canonicalise
    lower_texture := sd.lower_texture.canonicalise
    middle_texture := sd.middle_texture.canonicalise }

/-- Canonicalisation of one decoded sector, as performed by the loader
loop: the two texture-name fields are canonicalised in place. -/
def canonSector (s : WadSector) : WadSector :=
  { s with
    floor_texture := s.floor_texture.canonicalise
    ceiling_texture := s.ceiling_texture.canonicalise }

/-- `Level::from_archive`: resolve the marker lump (aborting with
`noSuchLevel` when absent, the `expect("No such level.")`), read the
eight sequences at the fixed offsets, canonicalise sidedef and sector
texture names once, and assemble the `Level`. -/
def from_archive (wad : Archive) (name : WadName) : Except Panic Level :=
  match wad.get_lump_index name with
  | none => .error .noSuchLevel
  | some start_index =>
    .ok
      { things := wad.readThings (start_index + THINGS_OFFSET)
        linedefs := wad.readLinedefs (start_index + LINEDEFS_OFFSET)
        sidedefs :=
          (wad.readSidedefs (start_index + SIDEDEFS_OFFSET)).map canonSidedef
        vertices := wad.readVertices (start_index + VERTICES_OFFSET)
        segs := wad.readSegs (start_index + SEGS_OFFSET)
        subsectors := wad.readSubsectors (start_index + SSECTORS_OFFSET)
        nodes := wad.readNodes (start_index + NODES_OFFSET)
        sectors :=
          (wad.readSectors (start_index + SECTORS_OFFSET)).map canonSector }

/-- `Level::vertex`: bounds-checked lookup of a vertex by id followed by
the coordinate transform. -/
def vertex (lvl : Level) (id : Nat) : Except Panic Vec2f :=
  match lvl.vertices.get? id with
  | none => .error .indexOutOfBounds
  | some v => .ok (from_wad_coords v.x v.y)

/-- `Level::seg_linedef`: bounds-checked lookup of the seg's linedef. -/
def seg_linedef (lvl : Level) (seg : WadSeg) : Except Panic WadLinedef :=
  match lvl.linedefs.get? seg.linedef with
  | none => .error .indexOutOfBounds
  | some line => .ok line

/-- `Level::seg_vertices`: the pair of transformed endpoints of a seg. -/
def seg_vertices (lvl : Level) (seg : WadSeg) :
    Except Panic (Vec2f × Vec2f) :=
  match vertex lvl seg.start_vertex, vertex lvl seg.end_vertex with
  | .ok a, .ok b => .ok (a, b)
  | .error e, _ => .error e
  | _, .error e => .error e

/-- `Level::left_sidedef`: `None` iff the stored index is exactly `-1`;
any other index is cast with `as uint` and looked up, aborting when out
of bounds. -/
def left_sidedef (lvl : Level) (line : WadLinedef) :
    Except Panic (Option WadSidedef) :=
  if line.left_side = -1 then .ok none
  else
    match lvl.sidedefs.get? (intAsUint line.left_side) with
    | none => .error .indexOutOfBounds
    | some sd => .ok (some sd)

/-- `Level::right_sidedef`: `None` iff the stored index is exactly `-1`;
any other index is cast with `as uint` and looked up, aborting when out
of bounds. -/
def right_sidedef (lvl : Level) (line : WadLinedef) :
    Except Panic (Option WadSidedef) :=
  if line.right_side = -1 then .ok none
  else
    match lvl.sidedefs.get? (intAsUint line.right_side) with
    | none => .error .indexOutOfBounds
    | some sd => .ok (some sd)

/-- The `unwrap()` applied by `seg_sidedef` to its chosen front side:
propagate an abort, abort with `unwrapEmpty` on an absent sidedef, and
pass a present sidedef through. -/
def unwrapSidedef : Except Panic (Option WadSidedef) → Except Panic WadSidedef
  | .error e => .error e
  | .ok none => .error .unwrapEmpty
  | .ok (some sd) => .ok sd

/-- `Level::seg_sidedef`: resolve the seg's linedef, pick the right
sidedef when `direction == 0` and the left one otherwise, then
`unwrap()` — aborting when the picked side is absent. -/
def seg_sidedef (lvl : Level) (seg : WadSeg) : Except Panic WadSidedef :=
  match seg_linedef lvl seg with
  | .error e => .error e
  | .ok line =>
    unwrapSidedef
      (if seg.direction = 0 then right_sidedef lvl line
       else left_sidedef lvl line)

/-- `Level::seg_back_sidedef`: resolve the seg's linedef, then return the
right sidedef when `direction == 1` and the left one otherwise, without
unwrapping. -/
def seg_back_sidedef (lvl : Level) (seg : WadSeg) :
    Except Panic (Option WadSidedef) :=
  match seg_linedef lvl seg with
  | .error e => .error e
  | .ok line =>
    if seg.direction = 1 then right_sidedef lvl line
    else left_sidedef lvl line

/-- `Level::sidedef_sector`: bounds-checked lookup of the sidedef's
owning sector. -/
def sidedef_sector (lvl : Level) (sd : WadSidedef) : Except Panic WadSector :=
  match lvl.sectors.get? sd.sector with
  | none => .error .indexOutOfBounds
  | some s => .ok s

/-- `Level::seg_sector`: the sector owning the seg's front sidedef. -/
def seg_sector (lvl : Level) (seg : WadSeg) : Except Panic WadSector :=
  match seg_sidedef lvl seg with
  | .error e => .error e
  | .ok sd => sidedef_sector lvl sd

/-- `Level::seg_back_sector`: the sector owning the seg's back sidedef,
if that sidedef exists. -/
def seg_back_sector (lvl : Level) (seg : WadSeg) :
    Except Panic (Option WadSector) :=
  match seg_back_sidedef lvl seg with
  | .error e => .error e
  | .ok none => .ok none
  | .ok (some sd) =>
    match sidedef_sector lvl sd with
    | .error e => .error e
    | .ok s => .ok (some s)

/-- Rust `Vec::slice(a, b)`: the sub-list `[a, b)`, aborting when the
bounds are not `a ≤ b ≤ len`. -/
def sliceChecked (xs : List WadSeg) (a b : Nat) :
    Except Panic (List WadSeg) :=
  if a ≤ b ∧ b ≤ xs.length then .ok ((xs.drop a).take (b - a))
  else .error .indexOutOfBounds

/-- `Level::ssector_segs`: the contiguous slice
`[first_seg, first_seg + num_segs)` of the seg sequence. -/
def ssector_segs (lvl : Level) (ss : WadSubsector) :
    Except Panic (List WadSeg) :=
  sliceChecked lvl.segs ss.first_seg (ss.first_seg + ss.num_segs)

/-- The byte size of a `WadSector` record in the file format
(2 + 2 + 8 + 8 + 2 + 2 + 2), used by the pointer arithmetic of
`sector_id`. -/
def sectorRecordSize : Nat := 26

/-- `Level::sector_id`: derives the positional index of a sector
reference by pointer arithmetic — the byte offset of the element from
the base of the sequence, divided by the record size — then asserts the
result is in bounds.  A genuine reference to the element at position `i`
sits at byte offset `i * sectorRecordSize`, which is how the reference
is modeled here. -/
def sector_id (lvl : Level) (i : Nat) : Except Panic Nat :=
  let derived := i * sectorRecordSize / sectorRecordSize
  if derived < lvl.sectors.length then .ok derived
  else .error .assertFailed

/-- The loop body of `Level::sector_min_light`, fused over the list of
linedefs with the running minimum `acc`: resolve both sidedefs (skipping
the linedef when either side is absent, aborting on an out-of-bounds
side index); when one side's sector index equals `sid`, fetch the other
side's sector (bounds-checked) and lower `acc` to its light if smaller. -/
def sector_min_light_loop (lvl : Level) (sid : Nat) :
    List WadLinedef → Int → Except Panic Int
  | [], acc => .ok acc
  | line :: rest, acc =>
    match left_sidedef lvl line with
    | .error e => .error e
    | .ok none => sector_min_light_loop lvl sid rest acc
    | .ok (some l) =>
      match right_sidedef lvl line with
      | .error e => .error e
      | .ok none => sector_min_light_loop lvl sid rest acc
      | .ok (some r) =>
        if l.sector = sid then
          match lvl.sectors.get? r.sector with
          | none => .error .indexOutOfBounds
          | some s =>
            sector_min_light_loop lvl sid rest
              (if s.light < acc then s.light else acc)
        else if r.sector = sid then
          match lvl.sectors.get? l.sector with
          | none => .error .indexOutOfBounds
          | some s =>
            sector_min_light_loop lvl sid rest
              (if s.light < acc then s.light else acc)
        else sector_min_light_loop lvl sid rest acc

/-- `Level::sector_min_light`: start from the sector's own light
(the argument reference is modeled as its index `i`; `sector_id`'s
pointer arithmetic recovers `i` and its assert succeeds for any genuine
element), then scan every linedef with `sector_min_light_loop`. -/
def sector_min_light (lvl : Level) (i : Nat) : Except Panic Int :=
  match lvl.sectors.get? i with
  | none => .error .assertFailed
  | some sec =>
    match sector_id lvl i with
    | .error e => .error e
    | .ok sid => sector_min_light_loop lvl sid lvl.linedefs sec.light

/-!
Spec-side definitions, stated from the specification's own words, for
the refinement claim about `sector_min_light`.
-/

/-- The sidedef on one side of a linedef, by the spec's reading of a
signed side index: `-1` means absent; otherwise the index (cast the way
the code casts it) selects a sidedef when in bounds. -/
def sidedefAt (lvl : Level) (v : Int) : Option WadSidedef :=
  if v = -1 then none else lvl.sidedefs.get? (intAsUint v)

/-- Spec-side: the adjacency-candidate light contributed by one linedef
to sector `sid` — skip the linedef when either side is absent; when one
side's sector index equals `sid`, take the other side's sector light. -/
def lineNeighborLight (lvl : Level) (sid : Nat) (line : WadLinedef) :
    Option Int :=
  match sidedefAt lvl line.left_side, sidedefAt lvl line.right_side with
  | some l, some r =>
    if l.sector = sid then (lvl.sectors.get? r.sector).map (fun s => s.light)
    else if r.sector = sid then
      (lvl.sectors.get? l.sector).map (fun s => s.light)
    else none
  | _, _ => none

/-- Spec-side: the light levels of every sector sharing a two-sided
linedef with sector `sid`, gathered by scanning every linedef. -/
def neighborLights (lvl : Level) (sid : Nat) : List Int :=
  lvl.linedefs.filterMap (lineNeighborLight lvl sid)

/-- Data integrity of a loaded level, as assumed by the spec's data
model: every sidedef's sector index is in bounds, and every linedef side
index is either the `-1` sentinel or in bounds after the `as uint`
cast. -/
def WFLevel (lvl : Level) : Prop :=
  (∀ sd ∈ lvl.sidedefs, sd.sector < lvl.sectors.length) ∧
  (∀ line ∈ lvl.linedefs,
    (line.left_side = -1 ∨ intAsUint line.left_side < lvl.sidedefs.length) ∧
    (line.right_side = -1 ∨ intAsUint line.right_side < lvl.sidedefs.length))

instance (lvl : Level) : Decidable (WFLevel lvl) := by
  unfold WFLevel; infer_instance

/-!
Concrete fixture levels, used by witnesses and counterexamples.
-/

/-- The empty texture name. -/
def emptyName : WadName := []

/-- A sidedef with blank textures owning sector `sec`. -/
def mkSidedef (sec : Nat) : WadSidedef :=
  { upper_texture := emptyName, lower_texture := emptyName,
    middle_texture := emptyName, sector := sec }

/-- A sector with blank textures and the given light level. -/
def mkSector (light : Int) : WadSector :=
  { floor_height := 0, ceiling_height := 128, floor_texture := emptyName,
    ceiling_texture := emptyName, light := light }

/-- The single one-sided linedef of `oneSidedLevel`: right side present
(index 0), left side absent (`-1`). -/
def oneSidedLine : WadLinedef :=
  { start_vertex := 0, end_vertex := 1, left_side := -1, right_side := 0 }

/-- Seg 0 of `oneSidedLevel`: on the one-sided linedef, direction 0. -/
def segD0 : WadSeg :=
  { start_vertex := 0, end_vertex := 1, linedef := 0, direction := 0 }

/-- Seg 1 of `oneSidedLevel`: on the one-sided linedef, direction 1. -/
def segD1 : WadSeg :=
  { start_vertex := 1, end_vertex := 0, linedef := 0, direction := 1 }

/-- A level with one sector, one sidedef and a single one-sided linedef
(right side present, left side `-1`) carrying one seg per direction. -/
def oneSidedLevel : Level :=
  { things := []
    linedefs := [oneSidedLine]
    sidedefs := [mkSidedef 0]
    vertices := [{ x := 0, y := 0 }, { x := 64, y := 0 }]
    segs := [segD0, segD1]
    subsectors := [{ first_seg := 0, num_segs := 2 }]
    nodes := []
    sectors := [mkSector 160] }

/-- A level with three sectors A (light 200), B (light 50), C (light
100): linedef 0 joins A (left) and B (right), linedef 1 joins C (left)
and A (right), linedef 2 is one-sided on A.  So A's neighbors are B and
C, while B and C each neighbor only A. -/
def threeSectorLevel : Level :=
  { things := []
    linedefs :=
      [{ start_vertex := 0, end_vertex := 1, left_side := 0, right_side := 1 },
       { start_vertex := 1, end_vertex := 2, left_side := 2, right_side := 3 },
       { start_vertex := 2, end_vertex := 0, left_side := -1, right_side := 4 }]
    sidedefs :=
      [mkSidedef 0, mkSidedef 1, mkSidedef 2, mkSidedef 0, mkSidedef 0]
    vertices := [{ x := 0, y := 0 }, { x := 64, y := 0 }, { x := 0, y := 64 }]
    segs :=
      [{ start_vertex := 0, end_vertex := 1, linedef := 0, direction := 0 },
       { start_vertex := 1, end_vertex := 0, linedef := 0, direction := 1 },
       { start_vertex := 2, end_vertex := 0, linedef := 2, direction := 2 }]
    subsectors := [{ first_seg := 0, num_segs := 2 }, { first_seg := 2, num_segs := 0 }]
    nodes := []
    sectors := [mkSector 200, mkSector 50, mkSector 100] }

/-- A deliberately corrupt level: every stored cross-reference points
outside its target sequence. -/
def corruptLevel : Level :=
  { things := []
    linedefs := [{ start_vertex := 0, end_vertex := 1, left_side := 7, right_side := 9 }]
    sidedefs := [mkSidedef 5]
    vertices := [{ x := 0, y := 0 }]
    segs := [{ start_vertex := 0, end_vertex := 1, linedef := 3, direction := 0 }]
    subsectors := [{ first_seg := 0, num_segs := 4 }]
    nodes := []
    sectors := [mkSector 128] }

/-!
Helper lemmas.
-/

/-- `sector_id` recovers the index of a genuine in-bounds element: the
pointer arithmetic divides the byte offset back into the index and the
assert succeeds. -/
lemma sector_id_ok (lvl : Level) (i : Nat) (h : i < lvl.sectors.length) :
    sector_id lvl i = .ok i := by
  have hd : i * sectorRecordSize / sectorRecordSize = i := by
    unfold sectorRecordSize; omega
  simp [sector_id, hd, h]

/-- Out-of-bounds positional lookup yields `none`. -/
lemma getElem?_none_of_le {α : Type} (l : List α) (n : Nat)
    (h : l.length ≤ n) : l[n]? = none := by
  rw [← List.get?_eq_getElem?]
  exact List.get?_eq_none.mpr h

/-- The `as uint` cast of a negative `i16` value lands above `2 ^ 63`. -/
lemma intAsUint_neg_big (v : Int) (hlo : -(2 ^ 15) ≤ v) (hneg : v < 0) :
    2 ^ 63 < intAsUint v := by
  unfold intAsUint; omega

/-- The running-minimum update of `sector_min_light` is `min`. -/
lemma if_lt_eq_min (a b : Int) : (if b < a then b else a) = min a b := by
  rcases lt_or_ge b a with h | h
  · rw [if_pos h, min_eq_right h.le]
  · rw [if_neg (not_lt.mpr h), min_eq_left h]

/-- Folding `min` over a list never rises above the seed. -/
lemma foldl_min_le (l : List Int) : ∀ a : Int, List.foldl min a l ≤ a := by
  induction l with
  | nil => intro a; exact le_refl a
  | cons b t ih =>
    intro a
    calc List.foldl min a (b :: t) = List.foldl min (min a b) t := rfl
    _ ≤ min a b := ih (min a b)
    _ ≤ a := min_le_left a b

/-- Loop step: a linedef whose left side is absent is skipped. -/
lemma loop_cons_left_absent (lvl : Level) (sid : Nat) (line : WadLinedef)
    (rest : List WadLinedef) (acc : Int)
    (h : left_sidedef lvl line = .ok none) :
    sector_min_light_loop lvl sid (line :: rest) acc =
      sector_min_light_loop lvl sid rest acc := by
  simp [sector_min_light_loop, h]

/-- Loop step: a linedef whose right side is absent is skipped. -/
lemma loop_cons_right_absent (lvl : Level) (sid : Nat) (line : WadLinedef)
    (rest : List WadLinedef) (acc : Int) (l : WadSidedef)
    (hl : left_sidedef lvl line = .ok (some l))
    (hr : right_sidedef lvl line = .ok none) :
    sector_min_light_loop lvl sid (line :: rest) acc =
      sector_min_light_loop lvl sid rest acc := by
  simp [sector_min_light_loop, hl, hr]

/-- Loop step: left side owned by `sid` — the right side's sector light
becomes the adjacency candidate. -/
lemma loop_cons_hit_left (lvl : Level) (sid : Nat) (line : WadLinedef)
    (rest : List WadLinedef) (acc : Int) (l r : WadSidedef) (s : WadSector)
    (hl : left_sidedef lvl line = .ok (some l))
    (hr : right_sidedef lvl line = .ok (some r))
    (hsec : l.sector = sid) (hs : lvl.sectors.get? r.sector = some s) :
    sector_min_light_loop lvl sid (line :: rest) acc =
      sector_min_light_loop lvl sid rest
        (if s.light < acc then s.light else acc) := by
  have hs2 : lvl.sectors[r.sector]? = some s := by
    rw [← List.get?_eq_getElem?]; exact hs
  simp [sector_min_light_loop, hl, hr, hsec, hs2]

/-- Loop step: right side owned by `sid` (left is not) — the left side's
sector light becomes the adjacency candidate. -/
lemma loop_cons_hit_right (lvl : Level) (sid : Nat) (line : WadLinedef)
    (rest : List WadLinedef) (acc : Int) (l r : WadSidedef) (s : WadSector)
    (hl : left_sidedef lvl line = .ok (some l))
    (hr : right_sidedef lvl line = .ok (some r))
    (hne : l.sector ≠ sid) (hsec : r.sector = sid)
    (hs : lvl.sectors.get? l.sector = some s) :
    sector_min_light_loop lvl sid (line :: rest) acc =
      sector_min_light_loop lvl sid rest
        (if s.light < acc then s.light else acc) := by
  have hs2 : lvl.sectors[l.sector]? = some s := by
    rw [← List.get?_eq_getElem?]; exact hs
  simp [sector_min_light_loop, hl, hr, hne, hsec, hs2]

/-- Loop step: a two-sided linedef touching `sid` on neither side is
skipped. -/
lemma loop_cons_miss (lvl : Level) (sid : Nat) (line : WadLinedef)
    (rest : List WadLinedef) (acc : Int) (l r : WadSidedef)
    (hl : left_sidedef lvl line = .ok (some l))
    (hr : right_sidedef lvl line = .ok (some r))
    (hnl : l.sector ≠ sid) (hnr : r.sector ≠ sid) :
    sector_min_light_loop lvl sid (line :: rest) acc =
      sector_min_light_loop lvl sid rest acc := by
  simp [sector_min_light_loop, hl, hr, hnl, hnr]

/-- Characterization of the `sector_min_light` scan: over linedefs whose
side indices are valid-or-sentinel, on a level whose sidedef sector
indices are in bounds, the loop folds `min` over the spec-side
adjacency candidates. -/
lemma sector_min_light_loop_eq (lvl : Level)
    (hsd : ∀ sd ∈ lvl.sidedefs, sd.sector < lvl.sectors.length) (sid : Nat) :
    ∀ lines : List WadLinedef,
      (∀ line ∈ lines,
        (line.left_side = -1 ∨
          intAsUint line.left_side < lvl.sidedefs.length) ∧
        (line.right_side = -1 ∨
          intAsUint line.right_side < lvl.sidedefs.length)) →
      ∀ acc : Int,
        sector_min_light_loop lvl sid lines acc =
          .ok ((lines.filterMap (lineNeighborLight lvl sid)).foldl min acc) := by
  intro lines
  induction lines with
  | nil => intro _ acc; rfl
  | cons line rest ih =>
    intro hok acc
    have hline := hok line (List.mem_cons_self line rest)
    have hrest : ∀ l ∈ rest,
        (l.left_side = -1 ∨ intAsUint l.left_side < lvl.sidedefs.length) ∧
        (l.right_side = -1 ∨ intAsUint l.right_side < lvl.sidedefs.length) :=
      fun l hl => hok l (List.mem_cons_of_mem line hl)
    by_cases hL : line.left_side = -1
    · have e1 : left_sidedef lvl line = .ok none := by
        simp [left_sidedef, hL]
      have e3 : lineNeighborLight lvl sid line = none := by
        simp [lineNeighborLight, sidedefAt, hL]
      have e4 : List.filterMap (lineNeighborLight lvl sid) (line :: rest) =
          List.filterMap (lineNeighborLight lvl sid) rest := by
        simp [List.filterMap_cons, e3]
      rw [loop_cons_left_absent lvl sid line rest acc e1, e4]
      exact ih hrest acc
    · have hLlt : intAsUint line.left_side < lvl.sidedefs.length := by
        rcases hline.1 with h | h
        · exact absurd h hL
        · exact h
      obtain ⟨l, hgl⟩ : ∃ l,
          lvl.sidedefs.get? (intAsUint line.left_side) = some l :=
        ⟨_, List.get?_eq_get hLlt⟩
      have hgl2 : lvl.sidedefs[intAsUint line.left_side]? = some l := by
        rw [← List.get?_eq_getElem?]; exact hgl
      have e1 : left_sidedef lvl line = .ok (some l) := by
        simp [left_sidedef, hL, hgl2]
      have e2 : sidedefAt lvl line.left_side = some l := by
        simp [sidedefAt, hL, hgl2]
      by_cases hR : line.right_side = -1
      · have f1 : right_sidedef lvl line = .ok none := by
          simp [right_sidedef, hR]
        have e3 : lineNeighborLight lvl sid line = none := by
          simp [lineNeighborLight, e2, sidedefAt, hR]
        have e4 : List.filterMap (lineNeighborLight lvl sid) (line :: rest) =
            List.filterMap (lineNeighborLight lvl sid) rest := by
          simp [List.filterMap_cons, e3]
        rw [loop_cons_right_absent lvl sid line rest acc l e1 f1, e4]
        exact ih hrest acc
      · have hRlt : intAsUint line.right_side < lvl.sidedefs.length := by
          rcases hline.2 with h | h
          · exact absurd h hR
          · exact h
        obtain ⟨r, hgr⟩ : ∃ r,
            lvl.sidedefs.get? (intAsUint line.right_side) = some r :=
          ⟨_, List.get?_eq_get hRlt⟩
        have hgr2 : lvl.sidedefs[intAsUint line.right_side]? = some r := by
          rw [← List.get?_eq_getElem?]; exact hgr
        have f1 : right_sidedef lvl line = .ok (some r) := by
          simp [right_sidedef, hR, hgr2]
        have f2 : sidedefAt lvl line.right_side = some r := by
          simp [sidedefAt, hR, hgr2]
        by_cases hls : l.sector = sid
        · have hrs : r.sector < lvl.sectors.length :=
            hsd r (List.get?_mem hgr)
          obtain ⟨s, hs⟩ : ∃ s, lvl.sectors.get? r.sector = some s :=
            ⟨_, List.get?_eq_get hrs⟩
          have hs2 : lvl.sectors[r.sector]? = some s := by
            rw [← List.get?_eq_getElem?]; exact hs
          have e3 : lineNeighborLight lvl sid line = some s.light := by
            simp [lineNeighborLight, e2, f2, hls, hs2]
          have e4 : List.filterMap (lineNeighborLight lvl sid) (line :: rest) =
              s.light :: List.filterMap (lineNeighborLight lvl sid) rest := by
            simp [List.filterMap_cons, e3]
          rw [loop_cons_hit_left lvl sid line rest acc l r s e1 f1 hls hs, e4,
              ih hrest _, if_lt_eq_min]
          rfl
        · by_cases hrs : r.sector = sid
          · have hlsec : l.sector < lvl.sectors.length :=
              hsd l (List.get?_mem hgl)
            obtain ⟨s, hs⟩ : ∃ s, lvl.sectors.get? l.sector = some s :=
              ⟨_, List.get?_eq_get hlsec⟩
            have hs2 : lvl.sectors[l.sector]? = some s := by
              rw [← List.get?_eq_getElem?]; exact hs
            have e3 : lineNeighborLight lvl sid line = some s.light := by
              simp [lineNeighborLight, e2, f2, hls, hrs, hs2]
            have e4 : List.filterMap (lineNeighborLight lvl sid) (line :: rest) =
                s.light :: List.filterMap (lineNeighborLight lvl sid) rest := by
              simp [List.filterMap_cons, e3]
            rw [loop_cons_hit_right lvl sid line rest acc l r s e1 f1 hls hrs hs,
                e4, ih hrest _, if_lt_eq_min]
            rfl
          · have e3 : lineNeighborLight lvl sid line = none := by
              simp [lineNeighborLight, e2, f2, hls, hrs]
            have e4 : List.filterMap (lineNeighborLight lvl sid) (line :: rest) =
                List.filterMap (lineNeighborLight lvl sid) rest := by
              simp [List.filterMap_cons, e3]
            rw [loop_cons_miss lvl sid line rest acc l r e1 f1 hls hrs, e4]
            exact ih hrest acc

/-!
Claim theorems.
-/

/-- C1: For every loaded Level and every sector `i` in its sector
sequence (on data-integrity-respecting levels), `sector_min_light`
equals the minimum of the sector's own light level and the light levels
gathered by scanning every linedef — skipping any linedef with either
side absent and taking the other side's sector light whenever one side's
sector index equals `i` — and in particular the result never exceeds the
sector's own stored light level. -/
theorem c1_sector_min_light_is_min (lvl : Level) (hwf : WFLevel lvl)
    (i : Nat) (sec : WadSector) (hsec : lvl.sectors.get? i = some sec) :
    sector_min_light lvl i =
      .ok ((neighborLights lvl i).foldl min sec.light) ∧
    (neighborLights lvl i).foldl min sec.light ≤ sec.light := by
  obtain ⟨hi, -⟩ := List.get?_eq_some.mp hsec
  constructor
  · have hloop := sector_min_light_loop_eq lvl hwf.1 i lvl.linedefs hwf.2
      sec.light
    simp only [sector_min_light, hsec, sector_id_ok lvl i hi]
    exact hloop
  · exact foldl_min_le _ _

/-- C1 witness: in `threeSectorLevel`, sector 0 (light 200) neighbors
sectors 1 (light 50) and 2 (light 100); the minimum is 50. -/
theorem c1_witness :
    sector_min_light threeSectorLevel 0 =
      .ok ((neighborLights threeSectorLevel 0).foldl min
        (mkSector 200).light) ∧
    (neighborLights threeSectorLevel 0).foldl min (mkSector 200).light ≤
      (mkSector 200).light ∧
    sector_min_light threeSectorLevel 0 = .ok 50 := by
  have h := c1_sector_min_light_is_min threeSectorLevel (by decide) 0
    (mkSector 200) (by decide)
  exact ⟨h.1, h.2, by decide⟩

/-- C2 counterexample: in `oneSidedLevel` the only linedef is one-sided
(right side present, left side `-1`); for the seg with `direction = 1`
on it, `seg_back_sidedef` returns the right sidedef, not nothing — the
claim's direction-independence is false on the code. -/
theorem c2_counterexample :
    oneSidedLine.right_side = 0 ∧ oneSidedLine.left_side = -1 ∧
    segD1.direction = 1 ∧
    seg_linedef oneSidedLevel segD1 = .ok oneSidedLine ∧
    seg_back_sidedef oneSidedLevel segD1 = .ok (some (mkSidedef 0)) ∧
    seg_back_sidedef oneSidedLevel segD1 ≠ .ok none := by decide

/-- C2 (amended): for a seg on a linedef whose left side is `-1`,
`seg_back_sidedef` returns nothing when the seg's direction is 0; when
the direction is 1 it instead resolves the linedef's right sidedef
(present for a one-sided linedef), so the missing-side result is
direction-dependent. -/
theorem c2_back_sidedef_one_sided (lvl : Level) (seg : WadSeg)
    (line : WadLinedef) (hline : seg_linedef lvl seg = .ok line)
    (hleft : line.left_side = -1) :
    (seg.direction = 0 → seg_back_sidedef lvl seg = .ok none) ∧
    (seg.direction = 1 →
      seg_back_sidedef lvl seg = right_sidedef lvl line) := by
  constructor <;> intro hd
  · simp [seg_back_sidedef, hline, hd, left_sidedef, hleft]
  · simp [seg_back_sidedef, hline, hd]

/-- C2 witness: both directions on the one-sided linedef of
`oneSidedLevel`. -/
theorem c2_witness :
    seg_back_sidedef oneSidedLevel segD0 = .ok none ∧
    seg_back_sidedef oneSidedLevel segD1 =
      right_sidedef oneSidedLevel oneSidedLine := by
  constructor
  · exact (c2_back_sidedef_one_sided oneSidedLevel segD0 oneSidedLine
      (by decide) (by decide)).1 (by decide)
  · exact (c2_back_sidedef_one_sided oneSidedLevel segD1 oneSidedLine
      (by decide) (by decide)).2 (by decide)

/-- C3: `seg_sidedef` resolves the seg's linedef and unwraps its right
sidedef when `direction = 0` and its left sidedef when `direction = 1`;
when the selected front side is absent (stored index `-1`) the call
aborts with `unwrapEmpty` instead of returning a default or an absent
value. -/
theorem c3_seg_sidedef_front (lvl : Level) (seg : WadSeg)
    (line : WadLinedef) (hline : seg_linedef lvl seg = .ok line) :
    (seg.direction = 0 →
      seg_sidedef lvl seg = unwrapSidedef (right_sidedef lvl line)) ∧
    (seg.direction = 1 →
      seg_sidedef lvl seg = unwrapSidedef (left_sidedef lvl line)) ∧
    (seg.direction = 0 → line.right_side = -1 →
      seg_sidedef lvl seg = .error .unwrapEmpty) ∧
    (seg.direction = 1 → line.left_side = -1 →
      seg_sidedef lvl seg = .error .unwrapEmpty) := by
  refine ⟨?_, ?_, ?_, ?_⟩
  · intro hd; simp [seg_sidedef, hline, hd]
  · intro hd; simp [seg_sidedef, hline, hd]
  · intro hd hr
    simp [seg_sidedef, hline, hd, right_sidedef, hr, unwrapSidedef]
  · intro hd hl
    simp [seg_sidedef, hline, hd, left_sidedef, hl, unwrapSidedef]

/-- C3 witness: on `oneSidedLevel`, the direction-0 seg front-resolves
the right sidedef, and the direction-1 seg (whose front is the absent
left side) aborts with `unwrapEmpty`. -/
theorem c3_witness :
    seg_sidedef oneSidedLevel segD0 =
      unwrapSidedef (right_sidedef oneSidedLevel oneSidedLine) ∧
    seg_sidedef oneSidedLevel segD1 = .error .unwrapEmpty := by
  constructor
  · exact (c3_seg_sidedef_front oneSidedLevel segD0 oneSidedLine
      (by decide)).1 (by decide)
  · exact (c3_seg_sidedef_front oneSidedLevel segD1 oneSidedLine
      (by decide)).2.2.2 (by decide) (by decide)

/-- C4: `left_sidedef` / `right_sidedef` return nothing exactly when the
stored side index equals `-1` and otherwise return the sidedef stored at
that index; `seg_back_sidedef` resolves the side opposite `seg_sidedef`
— right when `direction = 1`, left when `direction = 0` — and so
returns nothing rather than aborting when that side is absent. -/
theorem c4_optional_side_resolution (lvl : Level) (line : WadLinedef)
    (seg : WadSeg) :
    (left_sidedef lvl line = .ok none ↔ line.left_side = -1) ∧
    (right_sidedef lvl line = .ok none ↔ line.right_side = -1) ∧
    (∀ sd, line.left_side ≠ -1 →
      lvl.sidedefs.get? (intAsUint line.left_side) = some sd →
      left_sidedef lvl line = .ok (some sd)) ∧
    (∀ sd, line.right_side ≠ -1 →
      lvl.sidedefs.get? (intAsUint line.right_side) = some sd →
      right_sidedef lvl line = .ok (some sd)) ∧
    (seg_linedef lvl seg = .ok line →
      (seg.direction = 1 →
        seg_back_sidedef lvl seg = right_sidedef lvl line) ∧
      (seg.direction = 0 →
        seg_back_sidedef lvl seg = left_sidedef lvl line)) := by
  refine ⟨?_, ?_, ?_, ?_, ?_⟩
  · constructor
    · intro h
      by_contra hc
      rcases hg : lvl.sidedefs.get? (intAsUint line.left_side) with _ | sd <;>
        [skip; skip] <;>
        · have hg2 := hg
          rw [List.get?_eq_getElem?] at hg2
          simp [left_sidedef, hc, hg2] at h
    · intro h; simp [left_sidedef, h]
  · constructor
    · intro h
      by_contra hc
      rcases hg : lvl.sidedefs.get? (intAsUint line.right_side) with _ | sd <;>
        · have hg2 := hg
          rw [List.get?_eq_getElem?] at hg2
          simp [right_sidedef, hc, hg2] at h
    · intro h; simp [right_sidedef, h]
  · intro sd hne hg
    have hg2 : lvl.sidedefs[intAsUint line.left_side]? = some sd := by
      rw [← List.get?_eq_getElem?]; exact hg
    simp [left_sidedef, hne, hg2]
  · intro sd hne hg
    have hg2 : lvl.sidedefs[intAsUint line.right_side]? = some sd := by
      rw [← List.get?_eq_getElem?]; exact hg
    simp [right_sidedef, hne, hg2]
  · intro hline
    constructor <;> intro hd <;> simp [seg_back_sidedef, hline, hd]

/-- C4 witness: on the one-sided linedef, the left side (stored `-1`) is
nothing, the right side (stored 0) is the stored sidedef, and the
direction-0 seg's back side resolves the left side. -/
theorem c4_witness :
    left_sidedef oneSidedLevel oneSidedLine = .ok none ∧
    right_sidedef oneSidedLevel oneSidedLine = .ok (some (mkSidedef 0)) ∧
    seg_back_sidedef oneSidedLevel segD0 =
      left_sidedef oneSidedLevel oneSidedLine := by
  refine ⟨?_, ?_, ?_⟩
  · exact (c4_optional_side_resolution oneSidedLevel oneSidedLine
      segD0).1.mpr (by decide)
  · exact (c4_optional_side_resolution oneSidedLevel oneSidedLine
      segD0).2.2.2.1 (mkSidedef 0) (by decide) (by decide)
  · exact ((c4_optional_side_resolution oneSidedLevel oneSidedLine
      segD0).2.2.2.2 (by decide)).2 (by decide)

/-!
Fixtures for the loader and corrupt-reference witnesses.
-/

/-- A name padded with two trailing NUL bytes; canonicalises to one
character. -/
def paddedName : WadName := ['A', Char.ofNat 0, Char.ofNat 0]

/-- A raw (not yet canonicalised) sidedef with padded texture names. -/
def rawSidedef : WadSidedef :=
  { upper_texture := paddedName, lower_texture := paddedName,
    middle_texture := paddedName, sector := 0 }

/-- A raw (not yet canonicalised) sector with padded texture names. -/
def rawSector : WadSector :=
  { floor_height := 0, ceiling_height := 128, floor_texture := paddedName,
    ceiling_texture := paddedName, light := 96 }

/-- A level name present in `testArchive`. -/
def nameE1 : WadName := ['E', '1']

/-- A concrete archive: `nameE1` marks position 3; each reader returns
data only at its fixed offset from the marker. -/
def testArchive : Archive :=
  { get_lump_index := fun n => if n = nameE1 then some 3 else none
    readThings := fun _ => []
    readLinedefs := fun idx => if idx = 5 then [oneSidedLine] else []
    readSidedefs := fun idx => if idx = 6 then [rawSidedef] else []
    readVertices := fun _ => []
    readSegs := fun _ => []
    readSubsectors := fun _ => []
    readNodes := fun _ => []
    readSectors := fun idx => if idx = 11 then [rawSector] else [] }

/-- The third linedef of `threeSectorLevel`: one-sided on sector A. -/
def lineA1s : WadLinedef :=
  { start_vertex := 2, end_vertex := 0, left_side := -1, right_side := 4 }

/-- The third seg of `threeSectorLevel`: an undefined direction value 2
on the one-sided linedef `lineA1s`. -/
def segDir2 : WadSeg :=
  { start_vertex := 2, end_vertex := 0, linedef := 2, direction := 2 }

/-- A linedef with negative non-`-1` side indices. -/
def negSideLine : WadLinedef :=
  { start_vertex := 0, end_vertex := 1, left_side := -2,
    right_side := -32768 }

/-- The corrupt line of `corruptLevel`: side indices 7 and 9 with only
one stored sidedef. -/
def corruptLine : WadLinedef :=
  { start_vertex := 0, end_vertex := 1, left_side := 7, right_side := 9 }

/-- The corrupt seg of `corruptLevel`: linedef index 3 with only one
stored linedef. -/
def corruptSeg : WadSeg :=
  { start_vertex := 0, end_vertex := 1, linedef := 3, direction := 0 }

/-- The corrupt sidedef of `corruptLevel`: sector index 5 with only one
stored sector. -/
def corruptSidedef : WadSidedef := mkSidedef 5

/-- The corrupt subsector of `corruptLevel`: seg range `[0, 4)` with only
one stored seg. -/
def corruptSS : WadSubsector := { first_seg := 0, num_segs := 4 }

/-- C5: `from_archive` fails with the level-not-found condition when the
archive has no lump of the given name; otherwise it reads the eight
record sequences at the fixed offsets `+1 .. +8` from the marker and
canonicalises each sidedef's three texture names and each sector's two
texture names exactly once (a single `canonSidedef` / `canonSector` per
record) before returning the Level. -/
theorem c5_from_archive_layout (wad : Archive) (name : WadName) :
    (wad.get_lump_index name = none →
      from_archive wad name = .error .noSuchLevel) ∧
    (∀ start_index, wad.get_lump_index name = some start_index →
      from_archive wad name = .ok
        { things := wad.readThings (start_index + 1)
          linedefs := wad.readLinedefs (start_index + 2)
          sidedefs :=
            (wad.readSidedefs (start_index + 3)).map canonSidedef
          vertices := wad.readVertices (start_index + 4)
          segs := wad.readSegs (start_index + 5)
          subsectors := wad.readSubsectors (start_index + 6)
          nodes := wad.readNodes (start_index + 7)
          sectors := (wad.readSectors (start_index + 8)).map canonSector }) := by
  constructor
  · intro h; simp [from_archive, h]
  · intro s h
    simp [from_archive, h, THINGS_OFFSET, LINEDEFS_OFFSET, SIDEDEFS_OFFSET,
      VERTICES_OFFSET, SEGS_OFFSET, SSECTORS_OFFSET, NODES_OFFSET,
      SECTORS_OFFSET]

/-- C5 witness: loading `nameE1` from `testArchive` yields the lumps
stored at offsets 4..11 from marker position 3, with the padded texture
names stripped; a missing name aborts with `noSuchLevel`. -/
theorem c5_witness :
    from_archive testArchive nameE1 = .ok
      { things := []
        linedefs := [oneSidedLine]
        sidedefs :=
          [{ upper_texture := ['A'], lower_texture := ['A'],
             middle_texture := ['A'], sector := 0 }]
        vertices := []
        segs := []
        subsectors := []
        nodes := []
        sectors :=
          [{ floor_height := 0, ceiling_height := 128,
             floor_texture := ['A'], ceiling_texture := ['A'],
             light := 96 }] } ∧
    from_archive testArchive emptyName = .error .noSuchLevel := by
  constructor
  · exact ((c5_from_archive_layout testArchive nameE1).2 3
      (by decide)).trans (by decide)
  · exact (c5_from_archive_layout testArchive emptyName).1 (by decide)

/-- C6: `sector_id` applied to (the index-modeled reference of) the
sector stored at any in-bounds position `i` of the sector sequence
returns `i`. -/
theorem c6_sector_id_returns_index (lvl : Level) (i : Nat)
    (h : i < lvl.sectors.length) : sector_id lvl i = .ok i :=
  sector_id_ok lvl i h

/-- C6 witness: position 2 of `threeSectorLevel`. -/
theorem c6_witness : sector_id threeSectorLevel 2 = .ok 2 :=
  c6_sector_id_returns_index threeSectorLevel 2 (by decide)

/-- C7: for a subsector whose range fits in the seg sequence,
`ssector_segs` returns exactly `num_segs` consecutive segs starting at
`first_seg`, and an empty subsector yields an empty view rather than an
error. -/
theorem c7_ssector_segs_range (lvl : Level) (ss : WadSubsector)
    (h : ss.first_seg + ss.num_segs ≤ lvl.segs.length) :
    ssector_segs lvl ss =
      .ok ((lvl.segs.drop ss.first_seg).take ss.num_segs) ∧
    ((lvl.segs.drop ss.first_seg).take ss.num_segs).length = ss.num_segs ∧
    (∀ j, j < ss.num_segs →
      ((lvl.segs.drop ss.first_seg).take ss.num_segs).get? j =
        lvl.segs.get? (ss.first_seg + j)) ∧
    (ss.num_segs = 0 → ssector_segs lvl ss = .ok []) := by
  have hcond : ss.first_seg ≤ ss.first_seg + ss.num_segs ∧
      ss.first_seg + ss.num_segs ≤ lvl.segs.length := ⟨Nat.le_add_right _ _, h⟩
  have hmain : ssector_segs lvl ss =
      .ok ((lvl.segs.drop ss.first_seg).take ss.num_segs) := by
    simp only [ssector_segs, sliceChecked, if_pos hcond,
      Nat.add_sub_cancel_left]
  refine ⟨hmain, ?_, ?_, ?_⟩
  · rw [List.length_take, List.length_drop]
    omega
  · intro j hj
    rw [List.get?_take hj, List.get?_drop]
  · intro h0
    rw [hmain, h0, List.take_zero]

/-- C7 witness: the full seg range of `oneSidedLevel` and the empty
subsector of `threeSectorLevel`. -/
theorem c7_witness :
    ssector_segs oneSidedLevel { first_seg := 0, num_segs := 2 } =
      .ok [segD0, segD1] ∧
    ssector_segs threeSectorLevel { first_seg := 2, num_segs := 0 } =
      .ok [] := by
  constructor
  · exact ((c7_ssector_segs_range oneSidedLevel
      { first_seg := 0, num_segs := 2 } (by decide)).1).trans (by decide)
  · exact (c7_ssector_segs_range threeSectorLevel
      { first_seg := 2, num_segs := 0 } (by decide)).2.2.2 (by decide)

/-- C8: every stored cross-reference that points outside its target
sequence makes the dereferencing query abort with `indexOutOfBounds`
rather than clamping or defaulting: a seg's linedef index
(`seg_linedef`), a sidedef's sector index (`sidedef_sector`), a vertex
id (`vertex`), a non-sentinel linedef side index (`left_sidedef` /
`right_sidedef`), and a subsector's seg range (`ssector_segs`). -/
theorem c8_invalid_reference_aborts (lvl : Level) (seg : WadSeg)
    (sd : WadSidedef) (id : Nat) (line : WadLinedef)
    (ss : WadSubsector) :
    (lvl.linedefs.length ≤ seg.linedef →
      seg_linedef lvl seg = .error .indexOutOfBounds) ∧
    (lvl.sectors.length ≤ sd.sector →
      sidedef_sector lvl sd = .error .indexOutOfBounds) ∧
    (lvl.vertices.length ≤ id →
      vertex lvl id = .error .indexOutOfBounds) ∧
    (line.left_side ≠ -1 →
      lvl.sidedefs.length ≤ intAsUint line.left_side →
      left_sidedef lvl line = .error .indexOutOfBounds) ∧
    (line.right_side ≠ -1 →
      lvl.sidedefs.length ≤ intAsUint line.right_side →
      right_sidedef lvl line = .error .indexOutOfBounds) ∧
    (lvl.segs.length < ss.first_seg + ss.num_segs →
      ssector_segs lvl ss = .error .indexOutOfBounds) := by
  refine ⟨?_, ?_, ?_, ?_, ?_, ?_⟩
  · intro h; simp [seg_linedef, getElem?_none_of_le _ _ h]
  · intro h; simp [sidedef_sector, getElem?_none_of_le _ _ h]
  · intro h; simp [vertex, getElem?_none_of_le _ _ h]
  · intro hne h
    simp [left_sidedef, hne, getElem?_none_of_le _ _ h]
  · intro hne h
    simp [right_sidedef, hne, getElem?_none_of_le _ _ h]
  · intro h
    have hneg : ¬(ss.first_seg ≤ ss.first_seg + ss.num_segs ∧
        ss.first_seg + ss.num_segs ≤ lvl.segs.length) := by omega
    simp only [ssector_segs, sliceChecked, if_neg hneg]

/-- C8 witness: every cross-reference of `corruptLevel` aborts. -/
theorem c8_witness :
    seg_linedef corruptLevel corruptSeg = .error .indexOutOfBounds ∧
    sidedef_sector corruptLevel corruptSidedef = .error .indexOutOfBounds ∧
    vertex corruptLevel 1 = .error .indexOutOfBounds ∧
    left_sidedef corruptLevel corruptLine = .error .indexOutOfBounds ∧
    right_sidedef corruptLevel corruptLine = .error .indexOutOfBounds ∧
    ssector_segs corruptLevel corruptSS = .error .indexOutOfBounds := by
  have h := c8_invalid_reference_aborts corruptLevel corruptSeg
    corruptSidedef 1 corruptLine corruptSS
  exact ⟨h.1 (by decide), h.2.1 (by decide), h.2.2.1 (by decide),
    h.2.2.2.1 (by decide) (by decide), h.2.2.2.2.1 (by decide) (by decide),
    h.2.2.2.2.2 (by decide)⟩

/-- C9: for a seg whose direction is neither 0 nor 1, `seg_sidedef`
unwraps the linedef's left sidedef and `seg_back_sidedef` also resolves
the linedef's left sidedef — front and back select the same side. -/
theorem c9_undefined_direction_same_side (lvl : Level) (seg : WadSeg)
    (line : WadLinedef) (hline : seg_linedef lvl seg = .ok line)
    (h0 : seg.direction ≠ 0) (h1 : seg.direction ≠ 1) :
    seg_sidedef lvl seg = unwrapSidedef (left_sidedef lvl line) ∧
    seg_back_sidedef lvl seg = left_sidedef lvl line := by
  constructor
  · simp [seg_sidedef, hline, h0]
  · simp [seg_back_sidedef, hline, h1]

/-- C9 witness: the direction-2 seg of `threeSectorLevel`. -/
theorem c9_witness :
    seg_sidedef threeSectorLevel segDir2 =
      unwrapSidedef (left_sidedef threeSectorLevel lineA1s) ∧
    seg_back_sidedef threeSectorLevel segDir2 =
      left_sidedef threeSectorLevel lineA1s :=
  c9_undefined_direction_same_side threeSectorLevel segDir2 lineA1s
    (by decide) (by decide) (by decide)

/-- C10: a negative side index other than `-1` (within the `i16` field
range, on a level whose sidedef sequence is of any realistic length) is
not treated as the absent sentinel: `left_sidedef` / `right_sidedef` do
not return nothing — the `as uint` reinterpretation produces a huge
index and the bounds-checked access aborts. -/
theorem c10_negative_non_sentinel (lvl : Level) (line : WadLinedef)
    (hlen : lvl.sidedefs.length ≤ 2 ^ 63) :
    (-(2 ^ 15) ≤ line.left_side → line.left_side < 0 →
      line.left_side ≠ -1 →
      left_sidedef lvl line = .error .indexOutOfBounds ∧
      left_sidedef lvl line ≠ .ok none) ∧
    (-(2 ^ 15) ≤ line.right_side → line.right_side < 0 →
      line.right_side ≠ -1 →
      right_sidedef lvl line = .error .indexOutOfBounds ∧
      right_sidedef lvl line ≠ .ok none) := by
  constructor
  · intro hlo hneg hne
    have hbig := intAsUint_neg_big line.left_side hlo hneg
    have hnone : lvl.sidedefs[intAsUint line.left_side]? = none :=
      getElem?_none_of_le _ _ (by omega)
    have he : left_sidedef lvl line = .error .indexOutOfBounds := by
      simp [left_sidedef, hne, hnone]
    exact ⟨he, by rw [he]; exact fun h => Except.noConfusion h⟩
  · intro hlo hneg hne
    have hbig := intAsUint_neg_big line.right_side hlo hneg
    have hnone : lvl.sidedefs[intAsUint line.right_side]? = none :=
      getElem?_none_of_le _ _ (by omega)
    have he : right_sidedef lvl line = .error .indexOutOfBounds := by
      simp [right_sidedef, hne, hnone]
    exact ⟨he, by rw [he]; exact fun h => Except.noConfusion h⟩

/-- C10 witness: `negSideLine` (left `-2`, right `-32768`) on
`oneSidedLevel`. -/
theorem c10_witness :
    (left_sidedef oneSidedLevel negSideLine = .error .indexOutOfBounds ∧
      left_sidedef oneSidedLevel negSideLine ≠ .ok none) ∧
    (right_sidedef oneSidedLevel negSideLine = .error .indexOutOfBounds ∧
      right_sidedef oneSidedLevel negSideLine ≠ .ok none) := by
  have h := c10_negative_non_sentinel oneSidedLevel negSideLine (by decide)
  exact ⟨h.1 (by decide) (by decide) (by decide),
    h.2 (by decide) (by decide) (by decide)⟩
